import Mathlib

/-!
Shallow embedding of the pgwire simple/extended query handlers
(src/api/query.rs) and the result/row-encoding layer (src/api/results.rs).

Pure data is translated directly; the async sink on the client is modelled
as an explicit buffered/sent message pair on a `ClientState`, with
`feed` appending to the buffer and `flush` moving the buffer to the sent
list (`SinkExt::send` = feed + flush, `send_all` = feed each item + flush).
Fallible calls return `Except PgWireError`; a Rust panic from slice
indexing is a distinct `EncodeResult.panicked` outcome.
-/

namespace PgWire

/-- Wire byte sequences (the payload of a column value or message field). -/
abbrev Bytes := List Nat

/-- Modelled from the spec: the opaque data type identifier
(`postgres_types::Type`, external crate).  Only its identity is used by
this core, which dispatches on format, never on the type itself. -/
structure Ty where
  oid : Nat
deriving DecidableEq, Repr

/-- Field format from src/api/results.rs: per-column choice of text vs
binary wire encoding. -/
inductive FieldFormat where
  | Text
  | Binary
deriving DecidableEq, Repr

/-- Modelled from the spec: wire format-code constant from
messages/data.rs (not under src/); code 0 is text. -/
def FORMAT_CODE_TEXT : Int := 0

/-- Modelled from the spec: wire format-code constant from
messages/data.rs (not under src/); code 1 is binary. -/
def FORMAT_CODE_BINARY : Int := 1

/-- Source `FieldFormat::value` from src/api/results.rs. -/
def FieldFormat.value : FieldFormat → Int
  | .Text => FORMAT_CODE_TEXT
  | .Binary => FORMAT_CODE_BINARY

/-- Source `FieldFormat::from` from src/api/results.rs: code 1 parses as binary,
every other code falls back to text. -/
def FieldFormat.fromCode (code : Int) : FieldFormat :=
  if code = FORMAT_CODE_BINARY then FieldFormat.Binary else FieldFormat.Text

/-- Source `FieldInfo` from src/api/results.rs: one column's descriptive
metadata. -/
structure FieldInfo where
  name : String
  table_id : Option Int
  column_id : Option Int
  datatype : Ty
  type_size : Option Int
  type_modifier : Option Int
  format : FieldFormat
deriving DecidableEq, Repr

/-- Source `Tag` from src/api/results.rs: a completion marker, command keyword
plus optional affected-row count. -/
structure Tag where
  command : String
  rows : Option Nat
deriving DecidableEq, Repr

/-- Source `Tag::new_for_query` from src/api/results.rs. -/
def Tag.new_for_query (rows : Nat) : Tag :=
  { command := "SELECT", rows := some rows }

/-- Source `Tag::new_for_execution` from src/api/results.rs. -/
def Tag.new_for_execution (command : String) (rows : Option Nat) : Tag :=
  { command := command, rows := rows }

/-- Source `CommandComplete` wire message (completion tag text); its content as
used by src/api/results.rs is the tag string. -/
structure CommandComplete where
  tag : String
deriving DecidableEq, Repr

/-- Source `From<Tag> for CommandComplete` from src/api/results.rs:
the text is "<command> <rows>" when the count is present, else just the
command. -/
def commandCompleteFromTag (t : Tag) : CommandComplete :=
  match t.rows with
  | some rows => { tag := t.command ++ " " ++ toString rows }
  | none => { tag := t.command }

/-- Modelled from the spec: the `FieldDescription` entry of a
RowDescription wire message (messages/data.rs not under src/). -/
structure FieldDescription where
  name : String
  table_id : Int
  column_id : Int
  type_id : Nat
  type_size : Int
  type_modifier : Int
  format_code : Int
deriving DecidableEq, Repr

/-- Modelled from the spec: the RowDescription wire message, a field list
(messages/data.rs not under src/). -/
structure RowDescription where
  fields : List FieldDescription
deriving DecidableEq, Repr

/-- Modelled from the spec: the DataRow wire message, column byte
sequences or nulls (messages/data.rs not under src/). -/
structure DataRow where
  fields : List (Option Bytes)
deriving DecidableEq, Repr

/-- Modelled from the spec: the ErrorResponse wire message, structured
error fields (messages/response.rs not under src/); carried opaquely by
the handlers. -/
structure ErrorResponse where
  fields : List (Nat × String)
deriving DecidableEq, Repr

/-- Modelled from the spec: the idle status byte of ReadyForQuery
(messages/response.rs not under src/). -/
def READY_STATUS_IDLE : Nat := 73

/-- Modelled from the spec: the ReadyForQuery wire message carrying a
status byte (messages/response.rs not under src/). -/
structure ReadyForQuery where
  status : Nat
deriving DecidableEq, Repr

/-- Source `PgWireBackendMessage`: the outbound backend messages produced by the
handlers in src/api/query.rs. -/
inductive PgWireBackendMessage where
  | RowDescription (rd : RowDescription)
  | DataRow (row : DataRow)
  | CommandComplete (cc : CommandComplete)
  | ErrorResponse (err : ErrorResponse)
  | ReadyForQuery (r : ReadyForQuery)
deriving DecidableEq, Repr

/-- True exactly on ReadyForQuery messages. -/
def PgWireBackendMessage.isReadyForQuery : PgWireBackendMessage → Bool
  | .ReadyForQuery _ => true
  | _ => false

/-- Source `PgWireError` variants relevant to the handlers in src/api/query.rs:
resource-not-found failures plus an opaque carrier for embedder errors. -/
inductive PgWireError where
  | PortalNotFound (name : String)
  | StatementNotFound (name : String)
  | ApiError (msg : String)
deriving DecidableEq, Repr

/-- Modelled from the spec: the reserved key for the unnamed/default
resource (api/mod.rs not under src/); "no name" maps to this key, which
behaves identically to any other name. -/
def DEFAULT_NAME : String := ""

/-- Modelled from the spec: `Statement`, a parsed-but-not-bound query
(api/stmt.rs not under src/): name, raw query text, declared parameter
type identifiers. -/
structure Statement where
  id : String
  query : String
  parameter_types : List Ty
deriving DecidableEq, Repr

/-- Modelled from the spec: `Portal`, a statement bound to concrete
parameter values and result formats (api/portal.rs not under src/), with
the mutable flag `row_description_requested` consulted by Execute. -/
structure Portal where
  name : String
  statement : Statement
  parameters : List (Option Bytes)
  result_column_format : List FieldFormat
  row_description_requested : Bool
deriving DecidableEq, Repr

/-- Modelled from the spec: the named resource store's `get`
(api/store.rs not under src/): a shared snapshot, or nothing. -/
def storeGet {α : Type} (store : List (String × α)) (name : String) : Option α :=
  match store with
  | [] => none
  | (k, v) :: rest => if k = name then some v else storeGet rest name

/-- Modelled from the spec: the named resource store's `put`
(api/store.rs not under src/): inserts or replaces the entry under the
name, unconditionally. -/
def storePut {α : Type} (store : List (String × α)) (name : String) (v : α) :
    List (String × α) :=
  match store with
  | [] => [(name, v)]
  | (k, w) :: rest =>
      if k = name then (name, v) :: rest else (k, w) :: storePut rest name v

/-- Modelled from the spec: the named resource store's `del`
(api/store.rs not under src/): removes the entry, a no-op if absent. -/
def storeDel {α : Type} (store : List (String × α)) (name : String) :
    List (String × α) :=
  match store with
  | [] => []
  | (k, w) :: rest =>
      if k = name then storeDel rest name else (k, w) :: storeDel rest name

/-- Connection conversation phase (api/mod.rs not under src/; the three
phases are named by the spec). -/
inductive PgWireConnectionState where
  | Idle
  | QueryInProgress
  | ReadyForQuery
deriving DecidableEq, Repr

/-- The client as the handlers observe it: conversation state, the two
named-resource stores, and the outbound sink modelled as a buffered
(fed, not yet flushed) list plus the sent (flushed) list. -/
structure ClientState where
  state : PgWireConnectionState
  stmtStore : List (String × Statement)
  portalStore : List (String × Portal)
  buffered : List PgWireBackendMessage
  sent : List PgWireBackendMessage
deriving DecidableEq, Repr

/-- Source `ClientInfo::set_state`. -/
def setState (c : ClientState) (s : PgWireConnectionState) : ClientState :=
  { c with state := s }

/-- Source `Sink::feed`: enqueue one message on the outbound channel without
flushing. -/
def feedMsg (c : ClientState) (m : PgWireBackendMessage) : ClientState :=
  { c with buffered := c.buffered ++ [m] }

/-- Source `Sink::flush`: deliver all buffered outbound messages. -/
def flushClient (c : ClientState) : ClientState :=
  { c with sent := c.sent ++ c.buffered, buffered := [] }

/-- Source `SinkExt::send`: feed one message, then flush. -/
def sendMsg (c : ClientState) (m : PgWireBackendMessage) : ClientState :=
  flushClient (feedMsg c m)

/-- Source `SinkExt::send_all`: feed every message of the stream, then flush. -/
def sendAll (c : ClientState) (ms : List PgWireBackendMessage) : ClientState :=
  flushClient (ms.foldl feedMsg c)

/-- The full ordered message sequence the frontend observes (or will
observe after the next flush): sent then still-buffered messages. -/
def transcript (c : ClientState) : List PgWireBackendMessage :=
  c.sent ++ c.buffered

/-- Source `QueryResponse` from src/api/query.rs: data rows with schema and
completion, a row-less completion, or an error. -/
inductive QueryResponse where
  | Data (rd : RowDescription) (rows : List DataRow) (status : CommandComplete)
  | Empty (status : CommandComplete)
  | Error (err : ErrorResponse)
deriving DecidableEq, Repr

/-- Modelled from the spec: the Query frontend message carrying the raw
query text (messages/simplequery.rs not under src/). -/
structure Query where
  query : String
deriving DecidableEq, Repr

/-- Source `SimpleQueryHandler::on_query` from src/api/query.rs: set the state
to QueryInProgress, run the embedder's `do_query` (which sees the client
immutably), emit the response cycle, and return to ReadyForQuery.  The
`do_query` callback is passed explicitly. -/
def on_query
    (doQuery : ClientState → String → Except PgWireError QueryResponse)
    (c : ClientState) (q : Query) : ClientState × Except PgWireError Unit :=
  let c := setState c PgWireConnectionState.QueryInProgress
  match doQuery c q.query with
  | .error e => (c, .error e)
  | .ok resp =>
    let c :=
      match resp with
      | .Data rd rows status =>
          sendAll c
            (PgWireBackendMessage.RowDescription rd ::
              (rows.map PgWireBackendMessage.DataRow ++
                [PgWireBackendMessage.CommandComplete status,
                 PgWireBackendMessage.ReadyForQuery ⟨READY_STATUS_IDLE⟩]))
      | .Empty status =>
          flushClient
            (feedMsg (feedMsg c (PgWireBackendMessage.CommandComplete status))
              (PgWireBackendMessage.ReadyForQuery ⟨READY_STATUS_IDLE⟩))
      | .Error e =>
          flushClient
            (feedMsg (feedMsg c (PgWireBackendMessage.ErrorResponse e))
              (PgWireBackendMessage.ReadyForQuery ⟨READY_STATUS_IDLE⟩))
    (setState c PgWireConnectionState.ReadyForQuery, .ok ())

/-- Modelled from the spec: the Execute frontend message, portal name and
max-rows limit (messages/extendedquery.rs not under src/). -/
structure Execute where
  name : Option String
  max_rows : Int
deriving DecidableEq, Repr

/-- Modelled from the spec: the Describe frontend message, target-type
byte and name (messages/extendedquery.rs not under src/). -/
structure Describe where
  target_type : Nat
  name : Option String
deriving DecidableEq, Repr

/-- Modelled from the spec: the Close frontend message, target-type byte
and name (messages/extendedquery.rs not under src/). -/
structure Close where
  target_type : Nat
  name : Option String
deriving DecidableEq, Repr

/-- Modelled from the spec: the Sync frontend message
(messages/extendedquery.rs not under src/); it carries no data. -/
structure Sync where
deriving DecidableEq, Repr

/-- Modelled from the spec: the statement target-type byte, ASCII S
(messages/extendedquery.rs not under src/). -/
def TARGET_TYPE_BYTE_STATEMENT : Nat := 83

/-- Modelled from the spec: the portal target-type byte, ASCII P
(messages/extendedquery.rs not under src/). -/
def TARGET_TYPE_BYTE_PORTAL : Nat := 80

/-- Source `message.name().as_ref().map_or(DEFAULT_NAME, String::as_str)`:
the named resource, defaulting to the unnamed one. -/
def resolveName (name : Option String) : String :=
  name.getD DEFAULT_NAME

/-- Source `ExtendedQueryHandler::on_execute` from src/api/query.rs: look up the
portal; if absent fail with PortalNotFound; otherwise run the embedder's
`do_query` (which may mutate the client) and emit RowDescription only
when requested, DataRows when non-empty, then CommandComplete; an Empty
response emits CommandComplete alone and an Error response emits
ErrorResponse alone.  No ReadyForQuery is produced. -/
def on_execute
    (doQuery : ClientState → Portal → ClientState × Except PgWireError QueryResponse)
    (c : ClientState) (m : Execute) : ClientState × Except PgWireError Unit :=
  let portalName := resolveName m.name
  match storeGet c.portalStore portalName with
  | some portal =>
    match doQuery c portal with
    | (c1, .error e) => (c1, .error e)
    | (c1, .ok resp) =>
      match resp with
      | .Data head rows tail =>
          let c2 :=
            if portal.row_description_requested then
              sendMsg c1 (PgWireBackendMessage.RowDescription head)
            else c1
          let c3 :=
            if rows.isEmpty then c2
            else sendAll c2 (rows.map PgWireBackendMessage.DataRow)
          (sendMsg c3 (PgWireBackendMessage.CommandComplete tail), .ok ())
      | .Empty tail =>
          (sendMsg c1 (PgWireBackendMessage.CommandComplete tail), .ok ())
      | .Error err =>
          (sendMsg c1 (PgWireBackendMessage.ErrorResponse err), .ok ())
  | none => (c, .error (PgWireError.PortalNotFound portalName))

/-- Source `ExtendedQueryHandler::on_describe` from src/api/query.rs: look up
the named portal in the portal store, fail with PortalNotFound if absent,
else set `row_description_requested` on a copy and put it back under the
same name.  The message's target-type byte is not consulted. -/
def on_describe (c : ClientState) (m : Describe) :
    ClientState × Except PgWireError Unit :=
  let portalName := resolveName m.name
  match storeGet c.portalStore portalName with
  | some portal =>
      ({ c with
          portalStore := storePut c.portalStore portalName
            { portal with row_description_requested := true } },
        .ok ())
  | none => (c, .error (PgWireError.PortalNotFound portalName))

/-- Source `ExtendedQueryHandler::on_sync` from src/api/query.rs: flush the
outbound channel and succeed. -/
def on_sync (c : ClientState) (_m : Sync) : ClientState × Except PgWireError Unit :=
  (flushClient c, .ok ())

/-- Source `ExtendedQueryHandler::on_close` from src/api/query.rs: delete the
named entry from the store selected by the target-type byte; any other
byte is a silent no-op.  Always succeeds. -/
def on_close (c : ClientState) (m : Close) : ClientState × Except PgWireError Unit :=
  let name := resolveName m.name
  if m.target_type = TARGET_TYPE_BYTE_STATEMENT then
    ({ c with stmtStore := storeDel c.stmtStore name }, .ok ())
  else if m.target_type = TARGET_TYPE_BYTE_PORTAL then
    ({ c with portalStore := storeDel c.portalStore name }, .ok ())
  else
    (c, .ok ())

/-- An encodable value as the encoder sees it: the embedder-supplied
`ToSqlText`/`ToSql` encodings (external trait implementations), each
producing null (no bytes) or the value's bytes for the given type, or an
encoding error. -/
structure Value where
  toSqlText : Ty → Except PgWireError (Option Bytes)
  toSql : Ty → Except PgWireError (Option Bytes)

/-- Source `DataRowEncoder` from src/api/results.rs: accumulates one row; the
cursor `col_index` selects the schema column consumed by the next
`encode_field` call. -/
structure DataRowEncoder where
  buffer : List (Option Bytes)
  field_buffer : Bytes
  schema : List FieldInfo
  col_index : Nat

/-- Outcome of one field-encoding call: a Rust panic (out-of-bounds
schema indexing), an encoding error, or the advanced encoder. -/
inductive EncodeResult where
  | panicked
  | error (e : PgWireError)
  | ok (enc : DataRowEncoder)

/-- Source `DataRowEncoder::new` from src/api/results.rs. -/
def DataRowEncoder.new (fields : List FieldInfo) : DataRowEncoder :=
  { buffer := [], field_buffer := [], schema := fields, col_index := 0 }

/-- Source `DataRowEncoder::encode_field_with_type_and_format` from
src/api/results.rs: encodes with the caller-supplied type and format,
ignoring the schema entirely; pushes the field bytes (or a null marker),
advances the cursor and clears the scratch buffer. -/
def encode_field_with_type_and_format (e : DataRowEncoder) (v : Value)
    (data_type : Ty) (format : FieldFormat) : EncodeResult :=
  match (if format = FieldFormat.Text then v.toSqlText data_type
         else v.toSql data_type) with
  | .error err => EncodeResult.error err
  | .ok (some bytes) =>
      EncodeResult.ok { e with
        buffer := e.buffer ++ [some (e.field_buffer ++ bytes)],
        field_buffer := [],
        col_index := e.col_index + 1 }
  | .ok none =>
      EncodeResult.ok { e with
        buffer := e.buffer ++ [none],
        field_buffer := [],
        col_index := e.col_index + 1 }

/-- Source `DataRowEncoder::encode_field` from src/api/results.rs: reads the
data type and format from `schema[col_index]` — a Rust panic when the
cursor is past the schema — then encodes, pushes the field bytes (or a
null marker), advances the cursor and clears the scratch buffer. -/
def encode_field (e : DataRowEncoder) (v : Value) : EncodeResult :=
  match e.schema[e.col_index]? with
  | none => EncodeResult.panicked
  | some fi =>
    match (if fi.format = FieldFormat.Text then v.toSqlText fi.datatype
           else v.toSql fi.datatype) with
    | .error err => EncodeResult.error err
    | .ok (some bytes) =>
        EncodeResult.ok { e with
          buffer := e.buffer ++ [some (e.field_buffer ++ bytes)],
          field_buffer := [],
          col_index := e.col_index + 1 }
    | .ok none =>
        EncodeResult.ok { e with
          buffer := e.buffer ++ [none],
          field_buffer := [],
          col_index := e.col_index + 1 }

/-- Source `DataRowEncoder::finish` from src/api/results.rs: yields the
accumulated row. -/
def DataRowEncoder.finish (e : DataRowEncoder) : Except PgWireError DataRow :=
  Except.ok ⟨e.buffer⟩

/-- A sample statement for concrete evaluations. -/
def exStatement : Statement :=
  { id := "s", query := "select 1", parameter_types := [] }

/-- A sample portal (row description not requested). -/
def exPortal : Portal :=
  { name := "p", statement := exStatement, parameters := [],
    result_column_format := [], row_description_requested := false }

/-- A client with empty stores and an empty outbound channel. -/
def exClientEmpty : ClientState :=
  { state := PgWireConnectionState.Idle, stmtStore := [], portalStore := [],
    buffered := [], sent := [] }

/-- A client whose portal store holds `exPortal` under "p". -/
def exClientWithPortal : ClientState :=
  { exClientEmpty with portalStore := [("p", exPortal)] }

/-- A client whose statement store holds `exStatement` under "s" while
its portal store is empty. -/
def exClientStmtOnly : ClientState :=
  { exClientEmpty with stmtStore := [("s", exStatement)] }

/-- A sample row description. -/
def exRowDescription : RowDescription := ⟨[]⟩

/-- A sample data row. -/
def exDataRow : DataRow := ⟨[some [49]]⟩

/-- A sample completion message. -/
def exCommandComplete : CommandComplete := ⟨"SELECT 1"⟩

/-- A sample Data response with one row. -/
def exDataResp : QueryResponse :=
  QueryResponse.Data exRowDescription [exDataRow] exCommandComplete

/-- A simple-query callback that always yields `exDataResp`. -/
def exDoQuerySimple : ClientState → String → Except PgWireError QueryResponse :=
  fun _ _ => Except.ok exDataResp

/-- An extended-query callback that yields `exDataResp` without touching
the client. -/
def exDoQueryExt :
    ClientState → Portal → ClientState × Except PgWireError QueryResponse :=
  fun c _ => (c, Except.ok exDataResp)

/-- An extended-query callback that always fails; used to observe that a
code path never invokes the callback. -/
def exDoQueryExtErr :
    ClientState → Portal → ClientState × Except PgWireError QueryResponse :=
  fun c _ => (c, Except.error (PgWireError.ApiError "boom"))

/-- A sample data type identifier (the int4 oid). -/
def exTy : Ty := ⟨23⟩

/-- A sample value whose text encoding is one byte and whose binary
encoding is one byte; never null, never failing. -/
def exValue : Value :=
  { toSqlText := fun _ => Except.ok (some [49]),
    toSql := fun _ => Except.ok (some [1]) }

/-- A sample one-column text-format schema entry. -/
def exFieldInfo : FieldInfo :=
  { name := "id", table_id := none, column_id := none, datatype := exTy,
    type_size := none, type_modifier := none, format := FieldFormat.Text }

/-- The message sequence §4.3 prescribes for one simple-query cycle,
per response variant. -/
def expectedSimpleCycleMsgs (resp : QueryResponse) : List PgWireBackendMessage :=
  match resp with
  | .Data rd rows status =>
      PgWireBackendMessage.RowDescription rd ::
        (rows.map PgWireBackendMessage.DataRow ++
          [PgWireBackendMessage.CommandComplete status,
           PgWireBackendMessage.ReadyForQuery ⟨READY_STATUS_IDLE⟩])
  | .Empty status =>
      [PgWireBackendMessage.CommandComplete status,
       PgWireBackendMessage.ReadyForQuery ⟨READY_STATUS_IDLE⟩]
  | .Error e =>
      [PgWireBackendMessage.ErrorResponse e,
       PgWireBackendMessage.ReadyForQuery ⟨READY_STATUS_IDLE⟩]

/-- The message sequence §4.4 prescribes for one Execute on a found
portal, per response variant: RowDescription only when the portal
requested it, then the rows, then CommandComplete; never ReadyForQuery. -/
def expectedExecuteMsgs (portal : Portal) (resp : QueryResponse) :
    List PgWireBackendMessage :=
  match resp with
  | .Data head rows tail =>
      (if portal.row_description_requested
        then [PgWireBackendMessage.RowDescription head] else []) ++
      rows.map PgWireBackendMessage.DataRow ++
      [PgWireBackendMessage.CommandComplete tail]
  | .Empty tail => [PgWireBackendMessage.CommandComplete tail]
  | .Error err => [PgWireBackendMessage.ErrorResponse err]

theorem transcript_feedMsg (c : ClientState) (m : PgWireBackendMessage) :
    transcript (feedMsg c m) = transcript c ++ [m] := by
  simp [transcript, feedMsg]

theorem transcript_flushClient (c : ClientState) :
    transcript (flushClient c) = transcript c := by
  simp [transcript, flushClient]

theorem transcript_foldl_feedMsg (ms : List PgWireBackendMessage) (c : ClientState) :
    transcript (ms.foldl feedMsg c) = transcript c ++ ms := by
  induction ms generalizing c with
  | nil => simp
  | cons m ms ih => simp [ih, transcript_feedMsg]

theorem transcript_sendAll (c : ClientState) (ms : List PgWireBackendMessage) :
    transcript (sendAll c ms) = transcript c ++ ms := by
  simp [sendAll, transcript_flushClient, transcript_foldl_feedMsg]

theorem transcript_sendMsg (c : ClientState) (m : PgWireBackendMessage) :
    transcript (sendMsg c m) = transcript c ++ [m] := by
  simp [sendMsg, transcript_flushClient, transcript_feedMsg]

theorem transcript_setState (c : ClientState) (s : PgWireConnectionState) :
    transcript (setState c s) = transcript c := rfl

theorem getLast?_append_pair {α : Type} (l : List α) (a b : α) :
    (l ++ [a, b]).getLast? = some b := by
  have h : l ++ [a, b] = (l ++ [a]) ++ [b] := by simp
  rw [h]
  exact List.getLast?_concat _

/-- C6: converting a Tag to a CommandComplete yields the text
"\x7bcommand\x7d \x7brows\x7d" when the row count is present and exactly the
command when it is absent; in particular `Tag::new_for_execution("INSERT",
Some(100))` converts to "INSERT 100" and `Tag::new_for_execution("COMMIT",
None)` converts to "COMMIT". -/
theorem tag_command_complete_text (command : String) (rows : Nat) :
    commandCompleteFromTag (Tag.new_for_execution command (some rows)) =
      ⟨command ++ " " ++ toString rows⟩ ∧
    commandCompleteFromTag (Tag.new_for_execution command none) = ⟨command⟩ ∧
    commandCompleteFromTag (Tag.new_for_execution "INSERT" (some 100)) =
      ⟨"INSERT 100"⟩ ∧
    commandCompleteFromTag (Tag.new_for_execution "COMMIT" none) = ⟨"COMMIT"⟩ :=
  ⟨rfl, rfl, rfl, rfl⟩

/-- C7: FieldFormat parsing maps format code 1 to Binary and every other
code (including 0 and 7) to Text, never failing. -/
theorem field_format_from_code (code : Int) :
    (FieldFormat.fromCode code = FieldFormat.Binary ↔ code = 1) ∧
    (FieldFormat.fromCode code = FieldFormat.Text ↔ code ≠ 1) ∧
    FieldFormat.fromCode 1 = FieldFormat.Binary ∧
    FieldFormat.fromCode 0 = FieldFormat.Text ∧
    FieldFormat.fromCode 7 = FieldFormat.Text := by
  refine ⟨?_, ?_, rfl, rfl, rfl⟩ <;>
    by_cases h : code = 1 <;>
    simp [FieldFormat.fromCode, FORMAT_CODE_BINARY, h]

/-- C8: on_sync only flushes the outbound channel: it succeeds, enqueues
no backend message (the transcript is unchanged and the buffer is
drained), and leaves statement store, portal store and connection state
untouched. -/
theorem on_sync_only_flushes (c : ClientState) (m : Sync) :
    (on_sync c m).2 = Except.ok () ∧
    (on_sync c m).1.stmtStore = c.stmtStore ∧
    (on_sync c m).1.portalStore = c.portalStore ∧
    (on_sync c m).1.state = c.state ∧
    transcript (on_sync c m).1 = transcript c ∧
    (on_sync c m).1.buffered = [] :=
  ⟨rfl, rfl, rfl, rfl, transcript_flushClient c, rfl⟩

/-- C10: on_close with a target-type byte that is neither the statement
nor the portal discriminant returns Ok, emits nothing, and leaves the
client (both stores included) unchanged. -/
theorem on_close_unknown_target_noop (c : ClientState) (m : Close)
    (h1 : m.target_type ≠ TARGET_TYPE_BYTE_STATEMENT)
    (h2 : m.target_type ≠ TARGET_TYPE_BYTE_PORTAL) :
    on_close c m = (c, Except.ok ()) := by
  simp [on_close, h1, h2]

/-- Witness for C10 at target-type byte 0. -/
theorem on_close_unknown_target_noop_witness :
    on_close exClientWithPortal ⟨0, some "p"⟩ = (exClientWithPortal, Except.ok ()) :=
  on_close_unknown_target_noop exClientWithPortal ⟨0, some "p"⟩
    (by decide) (by decide)

/-- C9: on_execute is insensitive to the Execute message's row-limit
field: two Execute messages naming the same portal produce identical
results (same client, same emitted messages, same stores, same outcome)
for every callback and starting client. -/
theorem on_execute_ignores_row_limit
    (doQuery : ClientState → Portal → ClientState × Except PgWireError QueryResponse)
    (c : ClientState) (m1 m2 : Execute) (h : m1.name = m2.name) :
    on_execute doQuery c m1 = on_execute doQuery c m2 := by
  unfold on_execute
  rw [h]

/-- Witness for C9: row limits 5 and 0 on the same portal name. -/
theorem on_execute_ignores_row_limit_witness :
    on_execute exDoQueryExt exClientWithPortal ⟨some "p", 5⟩ =
      on_execute exDoQueryExt exClientWithPortal ⟨some "p", 0⟩ :=
  on_execute_ignores_row_limit exDoQueryExt exClientWithPortal
    ⟨some "p", 5⟩ ⟨some "p", 0⟩ rfl

/-- C3: on_execute with a portal name absent from the portal store
returns PortalNotFound carrying that name, leaves the client unchanged
(so no wire message is emitted), and never invokes the do_query
callback: the result is the same for any two callbacks. -/
theorem on_execute_unknown_portal
    (doQuery doQuery' :
      ClientState → Portal → ClientState × Except PgWireError QueryResponse)
    (c : ClientState) (m : Execute)
    (h : storeGet c.portalStore (resolveName m.name) = none) :
    on_execute doQuery c m =
      (c, Except.error (PgWireError.PortalNotFound (resolveName m.name))) ∧
    on_execute doQuery c m = on_execute doQuery' c m := by
  constructor <;> simp only [on_execute, h]

/-- Witness for C3: executing the unbound portal "q" on an empty store,
under a normal callback and under an always-failing callback. -/
theorem on_execute_unknown_portal_witness :
    on_execute exDoQueryExt exClientEmpty ⟨some "q", 0⟩ =
      (exClientEmpty, Except.error (PgWireError.PortalNotFound "q")) ∧
    on_execute exDoQueryExt exClientEmpty ⟨some "q", 0⟩ =
      on_execute exDoQueryExtErr exClientEmpty ⟨some "q", 0⟩ :=
  on_execute_unknown_portal exDoQueryExt exDoQueryExtErr exClientEmpty
    ⟨some "q", 0⟩ rfl

theorem transcript_getLast_of_append (c' c : ClientState)
    (pre : List PgWireBackendMessage) (a b : PgWireBackendMessage)
    (hT : transcript c' = transcript c ++ (pre ++ [a, b])) :
    (transcript c').getLast? = some b := by
  rw [hT, ← List.append_assoc]
  exact getLast?_append_pair _ a b

/-- C1: when the simple-query callback returns normally, on_query
succeeds and appends to the connection's transcript exactly the fixed
cycle for the response variant — RowDescription, the n DataRows,
CommandComplete, ReadyForQuery for Data (1 + n + 2 messages);
CommandComplete then ReadyForQuery for Empty; ErrorResponse then
ReadyForQuery for Error — ReadyForQuery is the last message of the cycle
and the connection ends in the ReadyForQuery state. -/
theorem on_query_fixed_message_order
    (doQuery : ClientState → String → Except PgWireError QueryResponse)
    (c : ClientState) (q : Query) (resp : QueryResponse)
    (h : doQuery (setState c PgWireConnectionState.QueryInProgress) q.query =
      Except.ok resp) :
    (on_query doQuery c q).2 = Except.ok () ∧
    transcript (on_query doQuery c q).1 =
      transcript c ++ expectedSimpleCycleMsgs resp ∧
    (expectedSimpleCycleMsgs resp).length =
      (match resp with
        | .Data _ rows _ => 1 + rows.length + 2
        | .Empty _ => 2
        | .Error _ => 2) ∧
    (transcript (on_query doQuery c q).1).getLast? =
      some (PgWireBackendMessage.ReadyForQuery ⟨READY_STATUS_IDLE⟩) ∧
    (on_query doQuery c q).1.state = PgWireConnectionState.ReadyForQuery := by
  cases resp with
  | Data rd rows status =>
      have hT : transcript (on_query doQuery c q).1 =
          transcript c ++
            expectedSimpleCycleMsgs (QueryResponse.Data rd rows status) := by
        simp [on_query, h, transcript_setState, transcript_sendAll,
          expectedSimpleCycleMsgs]
      refine ⟨by simp only [on_query, h], hT, ?_, ?_,
        by simp only [on_query, h]; rfl⟩
      · simp [expectedSimpleCycleMsgs]
        omega
      · exact transcript_getLast_of_append _ c
          (PgWireBackendMessage.RowDescription rd ::
            rows.map PgWireBackendMessage.DataRow)
          (PgWireBackendMessage.CommandComplete status)
          (PgWireBackendMessage.ReadyForQuery ⟨READY_STATUS_IDLE⟩) hT
  | Empty status =>
      have hT : transcript (on_query doQuery c q).1 =
          transcript c ++ expectedSimpleCycleMsgs (QueryResponse.Empty status) := by
        simp [on_query, h, transcript_setState, transcript_flushClient,
          transcript_feedMsg, expectedSimpleCycleMsgs]
      refine ⟨by simp only [on_query, h], hT, rfl, ?_,
        by simp only [on_query, h]; rfl⟩
      exact transcript_getLast_of_append _ c []
        (PgWireBackendMessage.CommandComplete status)
        (PgWireBackendMessage.ReadyForQuery ⟨READY_STATUS_IDLE⟩) hT
  | Error e =>
      have hT : transcript (on_query doQuery c q).1 =
          transcript c ++ expectedSimpleCycleMsgs (QueryResponse.Error e) := by
        simp [on_query, h, transcript_setState, transcript_flushClient,
          transcript_feedMsg, expectedSimpleCycleMsgs]
      refine ⟨by simp only [on_query, h], hT, rfl, ?_,
        by simp only [on_query, h]; rfl⟩
      exact transcript_getLast_of_append _ c []
        (PgWireBackendMessage.ErrorResponse e)
        (PgWireBackendMessage.ReadyForQuery ⟨READY_STATUS_IDLE⟩) hT

/-- Witness for C1: a callback yielding a one-row Data response on an
empty client. -/
theorem on_query_fixed_message_order_witness :
    (on_query exDoQuerySimple exClientEmpty ⟨"select 1"⟩).2 = Except.ok () ∧
    transcript (on_query exDoQuerySimple exClientEmpty ⟨"select 1"⟩).1 =
      transcript exClientEmpty ++ expectedSimpleCycleMsgs exDataResp ∧
    (expectedSimpleCycleMsgs exDataResp).length =
      (match exDataResp with
        | .Data _ rows _ => 1 + rows.length + 2
        | .Empty _ => 2
        | .Error _ => 2) ∧
    (transcript (on_query exDoQuerySimple exClientEmpty ⟨"select 1"⟩).1).getLast? =
      some (PgWireBackendMessage.ReadyForQuery ⟨READY_STATUS_IDLE⟩) ∧
    (on_query exDoQuerySimple exClientEmpty ⟨"select 1"⟩).1.state =
      PgWireConnectionState.ReadyForQuery :=
  on_query_fixed_message_order exDoQuerySimple exClientEmpty ⟨"select 1"⟩
    exDataResp rfl

theorem expectedExecuteMsgs_no_rfq (portal : Portal) (resp : QueryResponse)
    (r : ReadyForQuery) :
    PgWireBackendMessage.ReadyForQuery r ∉ expectedExecuteMsgs portal resp := by
  intro hr
  cases resp <;>
    by_cases hreq : portal.row_description_requested <;>
      simp [expectedExecuteMsgs, hreq] at hr

/-- C2: when the portal is found and the extended-query callback returns
normally, on_execute succeeds and appends exactly the §4.4 sequence: for
a Data response, RowDescription if and only if the portal's
row_description_requested flag is set, then the DataRows (exactly the
row sequence, so messages appear exactly when it is non-empty), then
CommandComplete; and no response variant ever emits ReadyForQuery. -/
theorem on_execute_found_message_order
    (doQuery : ClientState → Portal → ClientState × Except PgWireError QueryResponse)
    (c c1 : ClientState) (m : Execute) (portal : Portal) (resp : QueryResponse)
    (hp : storeGet c.portalStore (resolveName m.name) = some portal)
    (hq : doQuery c portal = (c1, Except.ok resp)) :
    (on_execute doQuery c m).2 = Except.ok () ∧
    transcript (on_execute doQuery c m).1 =
      transcript c1 ++ expectedExecuteMsgs portal resp ∧
    (∀ rd rows tail, resp = QueryResponse.Data rd rows tail →
      expectedExecuteMsgs portal resp =
        (if portal.row_description_requested
          then [PgWireBackendMessage.RowDescription rd] else []) ++
        rows.map PgWireBackendMessage.DataRow ++
        [PgWireBackendMessage.CommandComplete tail]) ∧
    ∀ r : ReadyForQuery,
      PgWireBackendMessage.ReadyForQuery r ∉ expectedExecuteMsgs portal resp := by
  refine ⟨?_, ?_, ?_, fun r => expectedExecuteMsgs_no_rfq portal resp r⟩
  · cases resp <;> simp [on_execute, hp, hq]
  · cases resp with
    | Data head rows tail =>
        cases rows <;> by_cases hreq : portal.row_description_requested <;>
          simp [on_execute, hp, hq, hreq, transcript_sendMsg, transcript_sendAll,
            expectedExecuteMsgs, List.append_assoc]
    | Empty tail =>
        simp [on_execute, hp, hq, transcript_sendMsg, expectedExecuteMsgs]
    | Error err =>
        simp [on_execute, hp, hq, transcript_sendMsg, expectedExecuteMsgs]
  · rintro rd rows tail rfl
    rfl

/-- Witness for C2: Execute on portal "p" (flag unset) with a one-row
Data response. -/
theorem on_execute_found_message_order_witness :
    (on_execute exDoQueryExt exClientWithPortal ⟨some "p", 0⟩).2 = Except.ok () ∧
    transcript (on_execute exDoQueryExt exClientWithPortal ⟨some "p", 0⟩).1 =
      transcript exClientWithPortal ++ expectedExecuteMsgs exPortal exDataResp ∧
    (∀ rd rows tail, exDataResp = QueryResponse.Data rd rows tail →
      expectedExecuteMsgs exPortal exDataResp =
        (if exPortal.row_description_requested
          then [PgWireBackendMessage.RowDescription rd] else []) ++
        rows.map PgWireBackendMessage.DataRow ++
        [PgWireBackendMessage.CommandComplete tail]) ∧
    ∀ r : ReadyForQuery,
      PgWireBackendMessage.ReadyForQuery r ∉ expectedExecuteMsgs exPortal exDataResp :=
  on_execute_found_message_order exDoQueryExt exClientWithPortal exClientWithPortal
    ⟨some "p", 0⟩ exPortal exDataResp rfl rfl

/-- C4 counterexample: a statement-target Describe whose name "s" is
present in the statement store (and absent from the portal store) does
not follow the claimed lookup/fail contract against the statement store
— the code consults only the portal store and fails with
PortalNotFound("s") even though the statement exists. -/
theorem on_describe_statement_target_counterexample :
    storeGet exClientStmtOnly.stmtStore "s" = some exStatement ∧
    (⟨TARGET_TYPE_BYTE_STATEMENT, some "s"⟩ : Describe).target_type =
      TARGET_TYPE_BYTE_STATEMENT ∧
    on_describe exClientStmtOnly ⟨TARGET_TYPE_BYTE_STATEMENT, some "s"⟩ =
      (exClientStmtOnly, Except.error (PgWireError.PortalNotFound "s")) :=
  ⟨rfl, rfl, rfl⟩

/-- C4 (amended): on_describe applies the portal contract regardless of
the message's target type: it looks up the name in the portal store,
fails with PortalNotFound if absent, otherwise sets
row_description_requested on a copy and writes it back under the same
name; the statement store is never consulted or modified, and the result
is identical to that of a portal-target Describe of the same name. -/
theorem on_describe_portal_contract (c : ClientState) (m : Describe) :
    (storeGet c.portalStore (resolveName m.name) = none →
      on_describe c m =
        (c, Except.error (PgWireError.PortalNotFound (resolveName m.name)))) ∧
    (∀ p, storeGet c.portalStore (resolveName m.name) = some p →
      on_describe c m =
        ({ c with portalStore :=
                    storePut c.portalStore (resolveName m.name)
                      ({ p with row_description_requested := true }) },
          Except.ok ())) ∧
    (on_describe c m).1.stmtStore = c.stmtStore ∧
    on_describe c m = on_describe c { m with target_type := TARGET_TYPE_BYTE_PORTAL } := by
  refine ⟨?_, ?_, ?_, rfl⟩
  · intro h
    simp only [on_describe, h]
  · intro p h
    simp only [on_describe, h]
  · rcases hsg : storeGet c.portalStore (resolveName m.name) with _ | p <;>
      simp [on_describe, hsg]

/-- Witness for C4 (amended): Describe on the missing portal "p" fails
with PortalNotFound; Describe on the bound portal "p" writes the
flag-set copy back. -/
theorem on_describe_portal_contract_witness :
    on_describe exClientEmpty ⟨TARGET_TYPE_BYTE_PORTAL, some "p"⟩ =
      (exClientEmpty, Except.error (PgWireError.PortalNotFound "p")) ∧
    on_describe exClientWithPortal ⟨TARGET_TYPE_BYTE_PORTAL, some "p"⟩ =
      ({ exClientWithPortal with
          portalStore :=
            storePut exClientWithPortal.portalStore "p"
              ({ exPortal with row_description_requested := true }) },
        Except.ok ()) :=
  ⟨(on_describe_portal_contract exClientEmpty
      ⟨TARGET_TYPE_BYTE_PORTAL, some "p"⟩).1 rfl,
   (on_describe_portal_contract exClientWithPortal
      ⟨TARGET_TYPE_BYTE_PORTAL, some "p"⟩).2.1 exPortal rfl⟩

/-- C5 counterexample: over a 0-column schema the first field-encoding
call is already one past the schema; encode_field makes it a hard
failure (panic), but the encode_field_with_type_and_format overload
succeeds and silently appends an extra field slot, refuting the claim
that the hard-failure behavior holds for both. -/
theorem encode_overload_overfill_counterexample :
    (DataRowEncoder.new []).schema.length = 0 ∧
    encode_field_with_type_and_format (DataRowEncoder.new []) exValue exTy
      FieldFormat.Text =
      EncodeResult.ok
        { buffer := [some [49]], field_buffer := [], schema := [],
          col_index := 1 } ∧
    encode_field (DataRowEncoder.new []) exValue = EncodeResult.panicked :=
  ⟨rfl, rfl, rfl⟩

/-- C5 (amended): a fresh DataRowEncoder starts its cursor at 0; every
successful encode_field call accesses the schema in bounds (cursor below
the schema length) and advances the cursor by one while appending one
field slot, and any encode_field call whose cursor has reached the
schema length is a hard immediate failure (panic).  The
encode_field_with_type_and_format overload, by contrast, never consults
the schema: it never panics, and on success silently appends a field
slot and advances the cursor even beyond the schema length. -/
theorem encode_field_schema_discipline (s : List FieldInfo)
    (e : DataRowEncoder) (v : Value) (ty : Ty) (fmt : FieldFormat) :
    (DataRowEncoder.new s).col_index = 0 ∧
    (e.schema.length ≤ e.col_index →
      encode_field e v = EncodeResult.panicked) ∧
    (∀ e', encode_field e v = EncodeResult.ok e' →
      e.col_index < e.schema.length ∧ e'.col_index = e.col_index + 1 ∧
      e'.schema = e.schema ∧ e'.buffer.length = e.buffer.length + 1) ∧
    encode_field_with_type_and_format e v ty fmt ≠ EncodeResult.panicked ∧
    (∀ e', encode_field_with_type_and_format e v ty fmt = EncodeResult.ok e' →
      e'.schema = e.schema ∧ e'.col_index = e.col_index + 1 ∧
      e'.buffer.length = e.buffer.length + 1) := by
  refine ⟨rfl, ?_, ?_, ?_, ?_⟩
  · intro h
    have hN : e.schema[e.col_index]? = none := List.getElem?_eq_none h
    simp [encode_field, hN]
  · intro e' h
    rcases hg : e.schema[e.col_index]? with _ | fi
    · simp [encode_field, hg] at h
    · have hlt : e.col_index < e.schema.length := by
        by_contra hge
        push_neg at hge
        rw [List.getElem?_eq_none hge] at hg
        simp at hg
      refine ⟨hlt, ?_⟩
      rcases hv : (if fi.format = FieldFormat.Text then v.toSqlText fi.datatype
          else v.toSql fi.datatype) with err | ob
      · simp [encode_field, hg, hv] at h
      · rcases ob with _ | bytes <;>
          · simp [encode_field, hg, hv] at h
            subst h
            simp
  · intro h
    rcases hv : (if fmt = FieldFormat.Text then v.toSqlText ty
        else v.toSql ty) with err | ob
    · simp [encode_field_with_type_and_format, hv] at h
    · rcases ob with _ | bytes <;>
        simp [encode_field_with_type_and_format, hv] at h
  · intro e' h
    rcases hv : (if fmt = FieldFormat.Text then v.toSqlText ty
        else v.toSql ty) with err | ob
    · simp [encode_field_with_type_and_format, hv] at h
    · rcases ob with _ | bytes <;>
        · simp [encode_field_with_type_and_format, hv] at h
          subst h
          simp

/-- Witness for C5 (amended): the second encode_field call on a
one-column schema panics (cursor at 1 = length); the first succeeds in
bounds; the overload on a zero-column schema does not panic and appends. -/
theorem encode_field_schema_discipline_witness :
    (DataRowEncoder.new [exFieldInfo]).col_index = 0 ∧
    encode_field (DataRowEncoder.new []) exValue = EncodeResult.panicked ∧
    ((DataRowEncoder.new [exFieldInfo]).col_index <
        (DataRowEncoder.new [exFieldInfo]).schema.length ∧
      ({ buffer := [some [49]], field_buffer := [], schema := [exFieldInfo],
          col_index := 1 } : DataRowEncoder).col_index =
        (DataRowEncoder.new [exFieldInfo]).col_index + 1 ∧
      ({ buffer := [some [49]], field_buffer := [], schema := [exFieldInfo],
          col_index := 1 } : DataRowEncoder).schema =
        (DataRowEncoder.new [exFieldInfo]).schema ∧
      ({ buffer := [some [49]], field_buffer := [], schema := [exFieldInfo],
          col_index := 1 } : DataRowEncoder).buffer.length =
        (DataRowEncoder.new [exFieldInfo]).buffer.length + 1) ∧
    encode_field_with_type_and_format (DataRowEncoder.new []) exValue exTy
      FieldFormat.Text ≠ EncodeResult.panicked ∧
    (({ buffer := [some [49]], field_buffer := [], schema := [],
          col_index := 1 } : DataRowEncoder).schema =
        (DataRowEncoder.new []).schema ∧
      ({ buffer := [some [49]], field_buffer := [], schema := [],
          col_index := 1 } : DataRowEncoder).col_index =
        (DataRowEncoder.new []).col_index + 1 ∧
      ({ buffer := [some [49]], field_buffer := [], schema := [],
          col_index := 1 } : DataRowEncoder).buffer.length =
        (DataRowEncoder.new []).buffer.length + 1) :=
  ⟨(encode_field_schema_discipline [exFieldInfo]
      (DataRowEncoder.new [exFieldInfo]) exValue exTy FieldFormat.Text).1,
   (encode_field_schema_discipline [] (DataRowEncoder.new [])
      exValue exTy FieldFormat.Text).2.1 (Nat.le_refl 0),
   (encode_field_schema_discipline [exFieldInfo]
      (DataRowEncoder.new [exFieldInfo]) exValue exTy FieldFormat.Text).2.2.1
      { buffer := [some [49]], field_buffer := [], schema := [exFieldInfo],
        col_index := 1 } rfl,
   (encode_field_schema_discipline [] (DataRowEncoder.new [])
      exValue exTy FieldFormat.Text).2.2.2.1,
   (encode_field_schema_discipline [] (DataRowEncoder.new [])
      exValue exTy FieldFormat.Text).2.2.2.2
      { buffer := [some [49]], field_buffer := [], schema := [],
        col_index := 1 } rfl⟩

end PgWire
